import Mathlib

/-!
Shallow embedding of the session-aware paginated query client in
`src/frontend/src/App.jsx` (the only source file of the repository's core).

The component state held in React `useState` hooks is collected into one
`AppState` record; each handler of the component becomes a pure function
from the pre-call state (plus the outcome of the remote call it awaits) to
the post-call state together with the list of `alert(...)` messages it
shows to the user and the network request it issues, if any.  Remote calls
resolve either with a typed payload or with an axios-style error object
carrying an optional HTTP status and optional server-provided message
fields.  `console.error`/`console.log` calls are not user-visible and are
not modelled as alerts.
-/

namespace RagApp

/-- JavaScript `String.prototype.trim()` as used by the guards in
`ask` and `login` (strip leading and trailing whitespace). -/
def jsTrim (s : String) : String :=
  String.mk (((s.data.dropWhile Char.isWhitespace).reverse.dropWhile
    Char.isWhitespace).reverse)

/-- JavaScript `a || b` applied to an optional string `a` (as in
`err?.response?.data?.error || err.message`): an absent or empty string
falls through to the fallback. -/
def orFalsy (o : Option String) (fallback : String) : String :=
  match o with
  | some d => if d = "" then fallback else d
  | none => fallback

/-- The `pagination` state hook of App.jsx (field names as in the source). -/
structure Pagination where
  current_page : Nat
  page_size : Nat
  total_results : Nat
  total_pages : Nat
  has_next : Bool
  has_previous : Bool
deriving Repr, DecidableEq

/-- The initial value of the `pagination` hook (App.jsx lines 19-26); the
same literal is re-installed by `logout` and `flushUserData`. -/
def initialPagination : Pagination :=
  { current_page := 1, page_size := 10, total_results := 0,
    total_pages := 1, has_next := false, has_previous := false }

/-- The authenticated identity stored in the `user` hook
(`{ user_id, username }`). -/
structure User where
  user_id : Nat
  username : String
deriving Repr, DecidableEq

/-- The whole component state of App.jsx.  `jwt_token` models the
`localStorage` entry and `authHeader` the axios default Authorization
header; `docs` entries and the `userDocuments` payload are opaque JSON
values, modelled as strings. -/
structure AppState where
  jwt_token : Option String
  authHeader : Option String
  file : Option String
  ingestStatus : Option String
  query : String
  answer : Option String
  docs : List String
  loading : Bool
  user : Option User
  loginData_username : String
  userDocuments : Option String
  showLogin : Bool
  pagination : Pagination
deriving Repr, DecidableEq

/-- An axios rejection: `status` is `err.response?.status`, `detail` is
`err.response?.data?.detail`, `dataError` is `err.response?.data?.error`,
`message` is `err.message`. -/
structure AxiosError where
  status : Option Nat
  detail : Option String
  dataError : Option String
  message : String
deriving Repr, DecidableEq

/-- Outcome of one awaited remote call: the parsed response payload, or an
axios error. -/
inductive ApiResult (α : Type) where
  | ok (val : α)
  | err (e : AxiosError)
deriving Repr, DecidableEq

/-- Body of a successful `POST /query` response as read by `ask`:
`answer`, optional `documents`, optional `pagination`. -/
structure QueryResponse where
  answer : Option String
  documents : Option (List String)
  pagination : Option Pagination
deriving Repr, DecidableEq

/-- The JSON body `ask` posts to `POST /query`. -/
structure QueryRequest where
  query : String
  top_k : Nat
  page : Nat
  page_size : Nat
deriving Repr, DecidableEq

/-- Body of a successful `POST /ingest` response (`ingested_chunks`,
`file`). -/
structure IngestResponse where
  ingested_chunks : Nat
  file : String
deriving Repr, DecidableEq

/-- Body of a successful `POST /auth/login` response. -/
structure LoginResponse where
  access_token : String
  user_id : Nat
  username : String
deriving Repr, DecidableEq

/-- Body of a successful `GET /api/documents/:id` response as formatted by
`viewDocumentInfo`. -/
structure DocInfo where
  filename : String
  upload_time : String
  total_chunks : Nat
  chunking_method : String
deriving Repr, DecidableEq

/-- Function `logout` (App.jsx lines 80-96): removes the stored token and the axios
header, clears `user`, shows the login screen, clears `userDocuments`,
`answer`, `docs`, and resets `pagination` to the initial literal.  It does
NOT touch `ingestStatus`, `query`, `file` or `loginData`. -/
def logout (s : AppState) : AppState :=
  { s with jwt_token := none, authHeader := none, user := none,
           showLogin := true, userDocuments := none, answer := none,
           docs := [], pagination := initialPagination }

/-- Function `fetchUserDocuments` (lines 50-57): on success stores the payload in
`userDocuments`; on ANY failure only `console.error` runs — no state
change and no user-visible message, regardless of the HTTP status. -/
def fetchUserDocuments (s : AppState) (o : ApiResult String) :
    AppState × List String :=
  match o with
  | .ok payload => ({ s with userDocuments := some payload }, [])
  | .err _ => (s, [])

/-- Function `fetchUserInfo` (lines 37-48): on success stores the identity, hides
the login screen and refetches the document list (outcome `od`); on any
failure removes the stored token and header and shows the login screen,
silently. -/
def fetchUserInfo (s : AppState) (o : ApiResult User)
    (od : ApiResult String) : AppState × List String :=
  match o with
  | .ok u =>
      fetchUserDocuments { s with user := some u, showLogin := false } od
  | .err _ =>
      ({ s with jwt_token := none, authHeader := none, showLogin := true },
       [])

/-- Function `login` (lines 59-78): rejects an all-whitespace username with an
alert and no network call; on remote success stores the token, sets the
identity, hides the login form and clears the form field; on remote
failure alerts with the server detail or the transport message. -/
def login (s : AppState) (o : ApiResult LoginResponse) :
    AppState × List String :=
  if jsTrim s.loginData_username = "" then
    (s, ["Please enter a username"])
  else
    match o with
    | .ok r =>
        ({ s with jwt_token := some r.access_token,
                  authHeader := some ("Bearer " ++ r.access_token),
                  user := some { user_id := r.user_id,
                                 username := r.username },
                  showLogin := false, loginData_username := "" }, [])
    | .err e =>
        (s, ["Login failed: " ++ orFalsy e.detail e.message])

/-- Function `upload` (lines 98-122): fails fast without a network call when no
file is chosen or no user is logged in; otherwise sets the status to
"Uploading...", and on success reports the chunk count, clears the file
and refetches the document list (outcome `od`); a 401 goes through
`logout` plus the session-expired alert; any other failure is reported in
`ingestStatus`. -/
def upload (s : AppState) (o : ApiResult IngestResponse)
    (od : ApiResult String) : AppState × List String :=
  if s.file = none then (s, ["Choose a file"])
  else if s.user = none then (s, ["Please login first"])
  else
    let s1 := { s with ingestStatus := some "Uploading..." }
    match o with
    | .ok r =>
        fetchUserDocuments
          { s1 with
              ingestStatus := some ("✅ Successfully ingested " ++
                toString r.ingested_chunks ++ " chunks from " ++ r.file),
              file := none } od
    | .err e =>
        if e.status = some 401 then
          (logout s1, ["Session expired. Please login again."])
        else
          ({ s1 with ingestStatus := some ("❌ Upload failed: " ++
              orFalsy e.dataError e.message) }, [])

/-- Result of the synchronous prefix of `ask`, up to the `await` on
`axios.post`: the state after the eager `setState` calls, the issued
request if the guards passed, and any alert shown. -/
structure PreResult where
  state : AppState
  request : Option QueryRequest
  alerts : List String
deriving Repr, DecidableEq

/-- Synchronous prefix of `ask(page)` (lines 125-138): an all-whitespace
query returns silently (no request, no message, no state change); a
missing user alerts "Please login first" (no request, no state change);
otherwise `loading` is set, the previous `answer` and `docs` are cleared,
and the `POST /query` request is issued with the current query text,
`top_k = 50`, the requested page and the current page size. -/
def askPre (s : AppState) (page : Nat) : PreResult :=
  if jsTrim s.query = "" then
    { state := s, request := none, alerts := [] }
  else if s.user = none then
    { state := s, request := none, alerts := ["Please login first"] }
  else
    { state := { s with loading := true, answer := none, docs := [] },
      request := some { query := s.query, top_k := 50, page := page,
                        page_size := s.pagination.page_size },
      alerts := [] }

/-- Continuation of `ask` once its response arrives (lines 139-158): on
success the answer, the documents (defaulting to `[]`) and — only when
present — the pagination block are installed; a 401 triggers `logout` and
the session-expired alert; any other failure writes an error message into
`answer`.  The `finally` clause clears `loading` on every path. -/
def askResolve (s : AppState) (o : ApiResult QueryResponse) :
    AppState × List String :=
  match o with
  | .ok r =>
      ({ s with answer := r.answer,
                docs := r.documents.getD [],
                pagination := r.pagination.getD s.pagination,
                loading := false }, [])
  | .err e =>
      if e.status = some 401 then
        ({ logout s with loading := false },
         ["Session expired. Please login again."])
      else
        ({ s with answer := some ("❌ Error: " ++
            orFalsy e.dataError e.message), loading := false }, [])

/-- One complete, non-overlapping run of `ask(page)` whose remote call,
when issued, resolves with outcome `o`. -/
def ask (s : AppState) (page : Nat) (o : ApiResult QueryResponse) :
    AppState × Option QueryRequest × List String :=
  let p := askPre s page
  match p.request with
  | none => (p.state, none, p.alerts)
  | some req =>
      let r := askResolve p.state o
      (r.1, some req, p.alerts ++ r.2)

/-- Function `handleNextPage` (lines 162-166): runs `ask(current_page + 1)` only
when `has_next` is set; otherwise nothing happens at all. -/
def handleNextPage (s : AppState) (o : ApiResult QueryResponse) :
    AppState × Option QueryRequest × List String :=
  if s.pagination.has_next then ask s (s.pagination.current_page + 1) o
  else (s, none, [])

/-- Function `handlePreviousPage` (lines 168-172): runs `ask(current_page - 1)`
only when `has_previous` is set; otherwise nothing happens at all. -/
def handlePreviousPage (s : AppState) (o : ApiResult QueryResponse) :
    AppState × Option QueryRequest × List String :=
  if s.pagination.has_previous then ask s (s.pagination.current_page - 1) o
  else (s, none, [])

/-- Function `downloadOriginalDocument` (lines 175-193): on success only DOM-level
side effects happen (object URL, anchor click) — no component state
changes; on ANY failure, 401 included, it alerts with the server detail or
the transport message and changes no state. -/
def downloadOriginalDocument (s : AppState) (o : ApiResult Unit) :
    AppState × List String :=
  match o with
  | .ok _ => (s, [])
  | .err e =>
      (s, ["Failed to download document: " ++ orFalsy e.detail e.message])

/-- Function `viewDocumentInfo` (lines 195-202): on success alerts the formatted
metadata; on ANY failure, 401 included, it alerts with the server detail
or the transport message; state is never changed. -/
def viewDocumentInfo (s : AppState) (o : ApiResult DocInfo) :
    AppState × List String :=
  match o with
  | .ok info =>
      (s, ["Document Info:\n\nFilename: " ++ info.filename ++
           "\nUploaded: " ++ info.upload_time ++
           "\nChunks: " ++ toString info.total_chunks ++
           "\nMethod: " ++ info.chunking_method])
  | .err e =>
      (s, ["Failed to get document info: " ++ orFalsy e.detail e.message])

/-- Function `flushUserData` (lines 204-225): returns silently when logged out or
when the confirm dialog is declined; on success alerts the server message
and clears the document list, answer, docs and pagination; on failure
alerts the server error or the transport message. -/
def flushUserData (s : AppState) (confirmed : Bool)
    (o : ApiResult String) : AppState × List String :=
  if s.user = none then (s, [])
  else if ¬ confirmed then (s, [])
  else
    match o with
    | .ok msg =>
        ({ s with userDocuments := none, answer := none, docs := [],
                  pagination := initialPagination }, [msg])
    | .err e =>
        (s, ["Failed to flush data: " ++ orFalsy e.dataError e.message])

/-- Applies the continuation of an `ask` call to the current shared state,
but only if that call actually issued a request (a guard-rejected call has
no pending continuation). -/
def resolveIfIssued (p : PreResult) (s : AppState)
    (o : ApiResult QueryResponse) : AppState :=
  match p.request with
  | none => s
  | some _ => (askResolve s o).1

/-- Two `ask(1)` calls issued in rapid succession: the user types `qA` and
submits, then types `qB` and submits while the first request is still in
flight.  Both synchronous prefixes run first (in submission order), then
the two continuations run in response-arrival order against the shared
component state — exactly the closure semantics of App.jsx, which keeps no
request-sequence counter.  `aArrivesLast` selects which response is
applied second. -/
def rapidTwoQueries (s0 : AppState) (qA qB : String)
    (oA oB : ApiResult QueryResponse) (aArrivesLast : Bool) : AppState :=
  let pA := askPre { s0 with query := qA } 1
  let pB := askPre { pA.state with query := qB } 1
  if aArrivesLast then
    resolveIfIssued pA (resolveIfIssued pB pB.state oB) oA
  else
    resolveIfIssued pB (resolveIfIssued pA pB.state oA) oB

/-- Modelled from the spec: the backend (FastAPI service of this
repository, absent from src/) computes the pagination block of a
`POST /query` response per §6 and §3 of the spec — `totalPages =
ceil(totalResults / pageSize)` when `totalResults > 0` else `1`,
`hasNext ⇔ currentPage < totalPages`, `hasPrevious ⇔ currentPage > 1`. -/
def serverPagination (page page_size total_results : Nat) : Pagination :=
  let total_pages :=
    if total_results > 0 then (total_results + page_size - 1) / page_size
    else 1
  { current_page := page, page_size := page_size,
    total_results := total_results, total_pages := total_pages,
    has_next := decide (page < total_pages),
    has_previous := decide (page > 1) }

/-- The PaginationState invariant of spec §3. -/
def paginationInvariant (p : Pagination) : Prop :=
  (p.has_next = true ↔ p.current_page < p.total_pages) ∧
  (p.has_previous = true ↔ p.current_page > 1) ∧
  p.total_pages =
    (if p.total_results > 0 then
      (p.total_results + p.page_size - 1) / p.page_size
     else 1)

instance (p : Pagination) : Decidable (paginationInvariant p) := by
  unfold paginationInvariant; infer_instance

/-- Fixture: an authenticated mid-session state (token stored, header set,
a file chosen, a nonempty query typed, initial pagination). -/
def sAuth : AppState :=
  { jwt_token := some "tok", authHeader := some "Bearer tok",
    file := some "a.pdf", ingestStatus := none, query := "what is X",
    answer := none, docs := [], loading := false,
    user := some { user_id := 1, username := "alice" },
    loginData_username := "", userDocuments := some "2 docs",
    showLogin := false, pagination := initialPagination }

/-- Fixture: an authorization-failure rejection (HTTP 401). -/
def e401 : AxiosError :=
  { status := some 401, detail := some "Token expired", dataError := none,
    message := "Request failed with status code 401" }

/-- Fixture: a non-authorization server failure (HTTP 500). -/
def e500 : AxiosError :=
  { status := some 500, detail := none,
    dataError := some "index unavailable",
    message := "Request failed with status code 500" }

/-- Fixture: response to the first of two racing queries. -/
def respA : QueryResponse :=
  { answer := some "answer A", documents := some ["excerpt A"],
    pagination := some (serverPagination 1 10 1) }

/-- Fixture: response to the second of two racing queries. -/
def respB : QueryResponse :=
  { answer := some "answer B", documents := some ["excerpt B"],
    pagination := some (serverPagination 1 10 1) }

/-- Fixture: authenticated state currently showing page 2 of a 3-page
result set (23 results, page size 10). -/
def sMidPages : AppState :=
  { sAuth with pagination :=
      { current_page := 2, page_size := 10, total_results := 23,
        total_pages := 3, has_next := true, has_previous := true } }

/-- Fixture: a successful query response carrying five sources but no
pagination block. -/
def respNoPagination : QueryResponse :=
  { answer := some "ans",
    documents := some ["s1", "s2", "s3", "s4", "s5"],
    pagination := none }

/-- Fixture: authenticated state with a visible ingestion status. -/
def sWithStatus : AppState :=
  { sAuth with
      ingestStatus := some "✅ Successfully ingested 3 chunks from a.pdf" }

/-- Fixture: authenticated state whose query text is all whitespace. -/
def sBlankQuery : AppState := { sAuth with query := "   " }

/-- Fixture: logged-out state with a nonempty query text. -/
def sNoUser : AppState := { sAuth with user := none }

/-- Fixture: authenticated state with a username typed in the login
form. -/
def sForm : AppState := { sAuth with loginData_username := "bob" }

/-- Every pagination block the (spec-modelled) backend produces satisfies
the spec §3 invariant, by construction. -/
theorem serverPagination_invariant (page psz tr : Nat) :
    paginationInvariant (serverPagination page psz tr) := by
  simp [paginationInvariant, serverPagination]

/-- C1 is false as stated: an authorization failure of the document-list
fetch does NOT run the recovery path — the credential and identity
survive untouched and no message is shown to the user. -/
theorem c1_counterexample :
    (fetchUserDocuments sAuth (ApiResult.err e401)).1.jwt_token =
      some "tok" ∧
    (fetchUserDocuments sAuth (ApiResult.err e401)).1.user ≠ none ∧
    (fetchUserDocuments sAuth (ApiResult.err e401)).2 = [] := by decide

/-- C1 (amended): on an authorization failure (HTTP 401) only the upload
and query calls run the full recovery path (credential, identity and all
dependent query/pagination/document-list state cleared, plus the
session-expired alert); the document-list fetch changes nothing and stays
silent, and the document-info and document-download calls only show a
local failure message, leaving the session state intact. -/
theorem c1_amended (s : AppState) (e : AxiosError) (od : ApiResult String)
    (h401 : e.status = some 401) (hf : s.file ≠ none)
    (hu : s.user ≠ none) :
    upload s (ApiResult.err e) od =
      (logout { s with ingestStatus := some "Uploading..." },
       ["Session expired. Please login again."]) ∧
    askResolve s (ApiResult.err e) =
      ({ logout s with loading := false },
       ["Session expired. Please login again."]) ∧
    fetchUserDocuments s (ApiResult.err e) = (s, []) ∧
    downloadOriginalDocument s (ApiResult.err e) =
      (s, ["Failed to download document: " ++
        orFalsy e.detail e.message]) ∧
    viewDocumentInfo s (ApiResult.err e) =
      (s, ["Failed to get document info: " ++
        orFalsy e.detail e.message]) := by
  refine ⟨?_, ?_, rfl, rfl, rfl⟩
  · simp [upload, hf, hu, h401]
  · simp [askResolve, h401]

/-- C1 witness: the amended statement at a concrete 401 rejection of an
authenticated session. -/
theorem c1_amended_witness :
    e401.status = some 401 ∧ sAuth.file ≠ none ∧ sAuth.user ≠ none ∧
    (upload sAuth (ApiResult.err e401) (ApiResult.ok "d") =
      (logout { sAuth with ingestStatus := some "Uploading..." },
       ["Session expired. Please login again."]) ∧
     askResolve sAuth (ApiResult.err e401) =
      ({ logout sAuth with loading := false },
       ["Session expired. Please login again."]) ∧
     fetchUserDocuments sAuth (ApiResult.err e401) = (sAuth, []) ∧
     downloadOriginalDocument sAuth (ApiResult.err e401) =
      (sAuth, ["Failed to download document: " ++
        orFalsy e401.detail e401.message]) ∧
     viewDocumentInfo sAuth (ApiResult.err e401) =
      (sAuth, ["Failed to get document info: " ++
        orFalsy e401.detail e401.message])) :=
  ⟨rfl, by decide, by decide,
   c1_amended sAuth e401 (ApiResult.ok "d") rfl (by decide) (by decide)⟩

/-- C2 is false as stated: there is no late-arrival discard — when the
superseded request's response arrives after the newer one has resolved, it
is applied anyway and overwrites the newer result, so the final view shows
query A's answer, not B's. -/
theorem c2_counterexample :
    (rapidTwoQueries sAuth "qa" "qb" (ApiResult.ok respA)
      (ApiResult.ok respB) true).answer = some "answer A" ∧
    (rapidTwoQueries sAuth "qa" "qb" (ApiResult.ok respA)
      (ApiResult.ok respB) true).docs = ["excerpt A"] ∧
    respB.answer = some "answer B" ∧
    (some "answer A" : Option String) ≠ some "answer B" := by decide

/-- C2 (amended): with two queries submitted in rapid succession, the
final visible result set is the one from the response that ARRIVES last,
whichever request issued it: responses are applied in arrival order, and a
late response to a superseded request overwrites the newer result instead
of being discarded. -/
theorem c2_amended (s0 : AppState) (qA qB : String)
    (rA rB : QueryResponse) (hA : jsTrim qA ≠ "") (hB : jsTrim qB ≠ "")
    (hu : s0.user ≠ none) :
    (rapidTwoQueries s0 qA qB (ApiResult.ok rA) (ApiResult.ok rB)
      true).answer = rA.answer ∧
    (rapidTwoQueries s0 qA qB (ApiResult.ok rA) (ApiResult.ok rB)
      true).docs = rA.documents.getD [] ∧
    (rapidTwoQueries s0 qA qB (ApiResult.ok rA) (ApiResult.ok rB)
      false).answer = rB.answer ∧
    (rapidTwoQueries s0 qA qB (ApiResult.ok rA) (ApiResult.ok rB)
      false).docs = rB.documents.getD [] := by
  simp [rapidTwoQueries, askPre, resolveIfIssued, askResolve, hA, hB, hu]

/-- C2 witness: the amended statement at two concrete racing queries. -/
theorem c2_amended_witness :
    jsTrim "qa" ≠ "" ∧ jsTrim "qb" ≠ "" ∧ sAuth.user ≠ none ∧
    ((rapidTwoQueries sAuth "qa" "qb" (ApiResult.ok respA)
       (ApiResult.ok respB) true).answer = respA.answer ∧
     (rapidTwoQueries sAuth "qa" "qb" (ApiResult.ok respA)
       (ApiResult.ok respB) true).docs = respA.documents.getD [] ∧
     (rapidTwoQueries sAuth "qa" "qb" (ApiResult.ok respA)
       (ApiResult.ok respB) false).answer = respB.answer ∧
     (rapidTwoQueries sAuth "qa" "qb" (ApiResult.ok respA)
       (ApiResult.ok respB) false).docs = respB.documents.getD []) :=
  ⟨by decide, by decide, by decide,
   c2_amended sAuth "qa" "qb" respA respB (by decide) (by decide)
     (by decide)⟩

/-- C3 is false as stated: when the pagination block is absent from a
successful response, the orchestrator keeps the PREVIOUS pagination state
(here page 2 of 3) instead of synthesizing the default single-page
block. -/
theorem c3_counterexample :
    (askResolve sMidPages (ApiResult.ok respNoPagination)).1.pagination =
      sMidPages.pagination ∧
    (askResolve sMidPages
      (ApiResult.ok respNoPagination)).1.pagination.current_page = 2 ∧
    (askResolve sMidPages
      (ApiResult.ok respNoPagination)).1.pagination.total_pages = 3 := by
  decide

/-- C3 (amended): for every successful query response whose pagination
block is absent, the orchestrator does not fail — it installs the answer
and sources as usual — and keeps the previous pagination state entirely
unchanged (no default block is synthesized; the initial state merely
coincides with the default single-page block). -/
theorem c3_amended (s : AppState) (r : QueryResponse)
    (h : r.pagination = none) :
    (askResolve s (ApiResult.ok r)).1 =
      { s with answer := r.answer, docs := r.documents.getD [],
               loading := false } ∧
    (askResolve s (ApiResult.ok r)).1.pagination = s.pagination := by
  simp [askResolve, h]

/-- C3 witness: the amended statement at a concrete block-free response
applied over a mid-pagination state. -/
theorem c3_amended_witness :
    respNoPagination.pagination = none ∧
    ((askResolve sMidPages (ApiResult.ok respNoPagination)).1 =
      { sMidPages with
          answer := respNoPagination.answer,
          docs := respNoPagination.documents.getD [],
          loading := false } ∧
     (askResolve sMidPages
       (ApiResult.ok respNoPagination)).1.pagination =
       sMidPages.pagination) :=
  ⟨rfl, c3_amended sMidPages respNoPagination rfl⟩

/-- C4 is false as stated: `logout` does not clear the ingestion status —
a visible upload status survives the wipe. -/
theorem c4_counterexample :
    (logout sWithStatus).ingestStatus =
      some "✅ Successfully ingested 3 chunks from a.pdf" ∧
    (logout sWithStatus).ingestStatus ≠ none ∧
    (logout sWithStatus).user = none := by decide

/-- C4 (amended): after any `logout` the credential, identity, document
list, query results and pagination are cleared to their empty/default
values, but the ingestion status (as well as the query text and the
selected file) survives unchanged. -/
theorem c4_amended (s : AppState) :
    logout s =
      { s with jwt_token := none, authHeader := none, user := none,
               showLogin := true, userDocuments := none, answer := none,
               docs := [], pagination := initialPagination } ∧
    (logout s).ingestStatus = s.ingestStatus ∧
    (logout s).query = s.query ∧
    (logout s).file = s.file :=
  ⟨rfl, rfl, rfl, rfl⟩

/-- C5: the PaginationState invariant (hasNext ⇔ currentPage < totalPages,
hasPrevious ⇔ currentPage > 1, totalPages = ceil(totalResults/pageSize)
when totalResults > 0 else 1) holds in the initial state, for every block
the (spec-modelled) backend produces, after every query response carrying
such a block is applied, and is preserved when a response carries no block
at all. -/
theorem c5_pagination_invariant :
    paginationInvariant initialPagination ∧
    (∀ page psz tr : Nat, 0 < psz →
      paginationInvariant (serverPagination page psz tr)) ∧
    (∀ (s : AppState) (r : QueryResponse) (page psz tr : Nat), 0 < psz →
      r.pagination = some (serverPagination page psz tr) →
      paginationInvariant
        (askResolve s (ApiResult.ok r)).1.pagination) ∧
    (∀ (s : AppState) (r : QueryResponse), r.pagination = none →
      paginationInvariant s.pagination →
      paginationInvariant
        (askResolve s (ApiResult.ok r)).1.pagination) := by
  refine ⟨by decide,
    fun page psz tr _ => serverPagination_invariant page psz tr, ?_, ?_⟩
  · intro s r page psz tr _ h
    simpa [askResolve, h] using serverPagination_invariant page psz tr
  · intro s r h hinv
    simpa [askResolve, h] using hinv

/-- C5 witness: the invariant at a concrete backend block (page 2 of the
23-result, size-10 set) and at a concrete block-free response. -/
theorem c5_witness :
    ((0 : Nat) < 10 ∧ paginationInvariant (serverPagination 2 10 23)) ∧
    (respNoPagination.pagination = none ∧
     paginationInvariant sAuth.pagination ∧
     paginationInvariant
       (askResolve sAuth (ApiResult.ok respNoPagination)).1.pagination) :=
  ⟨⟨by decide, c5_pagination_invariant.2.1 2 10 23 (by decide)⟩,
   ⟨rfl, by decide,
    c5_pagination_invariant.2.2.2 sAuth respNoPagination rfl
      (by decide)⟩⟩

/-- C6 is false as stated: a query that is empty after trimming is indeed
rejected before any network request, but SILENTLY — no user-facing
validation error is surfaced (the alert list is empty). -/
theorem c6_counterexample :
    sBlankQuery.user ≠ none ∧
    askPre sBlankQuery 1 =
      { state := sBlankQuery, request := none, alerts := [] } ∧
    (askPre sBlankQuery 1).alerts = [] := by decide

/-- C6 (amended): a call to the query operation with text empty after
trimming is rejected before any network request with no state change and
NO message; a call from an unauthenticated session is rejected before any
network request with no state change and the "Please login first"
alert. -/
theorem c6_amended (s : AppState) (page : Nat) :
    (jsTrim s.query = "" →
      askPre s page = { state := s, request := none, alerts := [] }) ∧
    (jsTrim s.query ≠ "" → s.user = none →
      askPre s page =
        { state := s, request := none,
          alerts := ["Please login first"] }) := by
  constructor
  · intro h; simp [askPre, h]
  · intro h1 h2; simp [askPre, h1, h2]

/-- C6 witness: both rejection branches at concrete states. -/
theorem c6_amended_witness :
    (jsTrim sBlankQuery.query = "" ∧
     askPre sBlankQuery 1 =
       { state := sBlankQuery, request := none, alerts := [] }) ∧
    (jsTrim sNoUser.query ≠ "" ∧ sNoUser.user = none ∧
     askPre sNoUser 1 =
       { state := sNoUser, request := none,
         alerts := ["Please login first"] }) :=
  ⟨⟨by decide, (c6_amended sBlankQuery 1).1 (by decide)⟩,
   ⟨by decide, rfl, (c6_amended sNoUser 1).2 (by decide) rfl⟩⟩

/-- C7: next/previous navigation with the corresponding flag false is a
complete no-op (no request, no alert, no state change); with the flag true
it is exactly the query call at the same query text and currentPage ± 1,
and any request that call issues carries the current query text, the
requested page and the current page size. -/
theorem c7_page_navigation (s : AppState) (o : ApiResult QueryResponse) :
    (s.pagination.has_next = false →
      handleNextPage s o = (s, none, [])) ∧
    (s.pagination.has_previous = false →
      handlePreviousPage s o = (s, none, [])) ∧
    (s.pagination.has_next = true →
      handleNextPage s o = ask s (s.pagination.current_page + 1) o) ∧
    (s.pagination.has_previous = true →
      handlePreviousPage s o =
        ask s (s.pagination.current_page - 1) o) ∧
    (∀ page : Nat,
      (askPre s page).request = none ∨
      (askPre s page).request =
        some { query := s.query, top_k := 50, page := page,
               page_size := s.pagination.page_size }) := by
  refine ⟨fun h => by simp [handleNextPage, h],
          fun h => by simp [handlePreviousPage, h],
          fun h => by simp [handleNextPage, h],
          fun h => by simp [handlePreviousPage, h], ?_⟩
  intro page
  by_cases h1 : jsTrim s.query = ""
  · left; simp [askPre, h1]
  · by_cases h2 : s.user = none
    · left; simp [askPre, h1, h2]
    · right; simp [askPre, h1, h2]

/-- C7 witness: a no-op next-page call on a single-page state and real
navigation calls on a page-2-of-3 state. -/
theorem c7_witness :
    (sAuth.pagination.has_next = false ∧
     handleNextPage sAuth (ApiResult.ok respA) = (sAuth, none, [])) ∧
    (sMidPages.pagination.has_next = true ∧
     handleNextPage sMidPages (ApiResult.ok respA) =
       ask sMidPages (sMidPages.pagination.current_page + 1)
         (ApiResult.ok respA)) ∧
    (sMidPages.pagination.has_previous = true ∧
     handlePreviousPage sMidPages (ApiResult.ok respA) =
       ask sMidPages (sMidPages.pagination.current_page - 1)
         (ApiResult.ok respA)) :=
  ⟨⟨rfl, (c7_page_navigation sAuth (ApiResult.ok respA)).1 rfl⟩,
   ⟨rfl, (c7_page_navigation sMidPages (ApiResult.ok respA)).2.2.1 rfl⟩,
   ⟨rfl,
    (c7_page_navigation sMidPages (ApiResult.ok respA)).2.2.2.1 rfl⟩⟩

/-- C8 is false as stated: a failure of the document-list fetch is
entirely silent — the state is unchanged and no user-visible message is
produced. -/
theorem c8_counterexample :
    fetchUserDocuments sAuth (ApiResult.err e500) = (sAuth, []) ∧
    (fetchUserDocuments sAuth (ApiResult.err e500)).2 = [] := by decide

/-- C8 (amended): every failure of every modelled operation resolves to a
user-visible message (an alert, or an error text rendered through
`ingestStatus` or `answer`) and leaves a stable state — EXCEPT the
document-list fetch, whose failure changes nothing and shows nothing
(console log only), and the startup credential check, which falls back to
the login screen without a message. -/
theorem c8_amended (s : AppState) (e : AxiosError) (od : ApiResult String)
    (page : Nat) (hq : jsTrim s.query ≠ "") (hu : s.user ≠ none)
    (hl : jsTrim s.loginData_username ≠ "") (hf : s.file ≠ none) :
    (login s (ApiResult.err e)).2 =
      ["Login failed: " ++ orFalsy e.detail e.message] ∧
    ((upload s (ApiResult.err e) od).2 =
       ["Session expired. Please login again."] ∨
     (upload s (ApiResult.err e) od).1.ingestStatus =
       some ("❌ Upload failed: " ++ orFalsy e.dataError e.message)) ∧
    ((ask s page (ApiResult.err e)).2.2 =
       ["Session expired. Please login again."] ∨
     (ask s page (ApiResult.err e)).1.answer =
       some ("❌ Error: " ++ orFalsy e.dataError e.message)) ∧
    (downloadOriginalDocument s (ApiResult.err e)).2 =
      ["Failed to download document: " ++ orFalsy e.detail e.message] ∧
    (viewDocumentInfo s (ApiResult.err e)).2 =
      ["Failed to get document info: " ++ orFalsy e.detail e.message] ∧
    (flushUserData s true (ApiResult.err e)).2 =
      ["Failed to flush data: " ++ orFalsy e.dataError e.message] ∧
    fetchUserDocuments s (ApiResult.err e) = (s, []) ∧
    (fetchUserInfo s (ApiResult.err e) od).2 = [] ∧
    (fetchUserInfo s (ApiResult.err e) od).1.showLogin = true := by
  refine ⟨by simp [login, hl], ?_, ?_, rfl, rfl,
          by simp [flushUserData, hu], rfl, rfl, rfl⟩
  · by_cases h : e.status = some 401
    · left; simp [upload, hf, hu, h]
    · right; simp [upload, hf, hu, h]
  · by_cases h : e.status = some 401
    · left; simp [ask, askPre, askResolve, hq, hu, h]
    · right; simp [ask, askPre, askResolve, hq, hu, h]

/-- C8 witness: the amended statement at a concrete non-authorization
failure of an authenticated session with a filled login form. -/
theorem c8_amended_witness :
    jsTrim sForm.query ≠ "" ∧ sForm.user ≠ none ∧
    jsTrim sForm.loginData_username ≠ "" ∧ sForm.file ≠ none ∧
    ((login sForm (ApiResult.err e500)).2 =
      ["Login failed: " ++ orFalsy e500.detail e500.message] ∧
     ((upload sForm (ApiResult.err e500) (ApiResult.ok "d")).2 =
        ["Session expired. Please login again."] ∨
      (upload sForm (ApiResult.err e500)
        (ApiResult.ok "d")).1.ingestStatus =
        some ("❌ Upload failed: " ++
          orFalsy e500.dataError e500.message)) ∧
     ((ask sForm 1 (ApiResult.err e500)).2.2 =
        ["Session expired. Please login again."] ∨
      (ask sForm 1 (ApiResult.err e500)).1.answer =
        some ("❌ Error: " ++ orFalsy e500.dataError e500.message)) ∧
     (downloadOriginalDocument sForm (ApiResult.err e500)).2 =
       ["Failed to download document: " ++
         orFalsy e500.detail e500.message] ∧
     (viewDocumentInfo sForm (ApiResult.err e500)).2 =
       ["Failed to get document info: " ++
         orFalsy e500.detail e500.message] ∧
     (flushUserData sForm true (ApiResult.err e500)).2 =
       ["Failed to flush data: " ++
         orFalsy e500.dataError e500.message] ∧
     fetchUserDocuments sForm (ApiResult.err e500) = (sForm, []) ∧
     (fetchUserInfo sForm (ApiResult.err e500) (ApiResult.ok "d")).2 =
       [] ∧
     (fetchUserInfo sForm (ApiResult.err e500)
       (ApiResult.ok "d")).1.showLogin = true) :=
  ⟨by decide, by decide, by decide, by decide,
   c8_amended sForm e500 (ApiResult.ok "d") 1 (by decide) (by decide)
     (by decide) (by decide)⟩

/-- C9: whenever the query operation passes its preconditions, the
previous answer and source list are cleared to empty and `loading` is set
before the request is issued, a request is indeed issued, and `loading` is
restored to false at resolution on every path — success, authorization
failure and other failures alike. -/
theorem c9_loading_lifecycle (s : AppState) (page : Nat)
    (hq : jsTrim s.query ≠ "") (hu : s.user ≠ none) :
    (askPre s page).state.answer = none ∧
    (askPre s page).state.docs = [] ∧
    (askPre s page).state.loading = true ∧
    (askPre s page).request.isSome = true ∧
    (∀ o : ApiResult QueryResponse,
      (askResolve (askPre s page).state o).1.loading = false) := by
  refine ⟨by simp [askPre, hq, hu], by simp [askPre, hq, hu],
          by simp [askPre, hq, hu], by simp [askPre, hq, hu], ?_⟩
  intro o
  cases o with
  | ok r => simp [askResolve]
  | err e => by_cases h : e.status = some 401 <;> simp [askResolve, h]

/-- C9 witness: the lifecycle at a concrete authenticated state, resolved
with a success, a 401 and a 500. -/
theorem c9_witness :
    jsTrim sAuth.query ≠ "" ∧ sAuth.user ≠ none ∧
    (askPre sAuth 1).state.answer = none ∧
    (askPre sAuth 1).state.docs = [] ∧
    (askPre sAuth 1).state.loading = true ∧
    (askPre sAuth 1).request.isSome = true ∧
    (askResolve (askPre sAuth 1).state
      (ApiResult.ok respA)).1.loading = false ∧
    (askResolve (askPre sAuth 1).state
      (ApiResult.err e401)).1.loading = false ∧
    (askResolve (askPre sAuth 1).state
      (ApiResult.err e500)).1.loading = false :=
  ⟨by decide, by decide,
   (c9_loading_lifecycle sAuth 1 (by decide) (by decide)).1,
   (c9_loading_lifecycle sAuth 1 (by decide) (by decide)).2.1,
   (c9_loading_lifecycle sAuth 1 (by decide) (by decide)).2.2.1,
   (c9_loading_lifecycle sAuth 1 (by decide) (by decide)).2.2.2.1,
   (c9_loading_lifecycle sAuth 1 (by decide) (by decide)).2.2.2.2
     (ApiResult.ok respA),
   (c9_loading_lifecycle sAuth 1 (by decide) (by decide)).2.2.2.2
     (ApiResult.err e401),
   (c9_loading_lifecycle sAuth 1 (by decide) (by decide)).2.2.2.2
     (ApiResult.err e500)⟩

/-- C10: on any non-authorization query failure the pagination state is
left entirely unchanged from before the call (the flags may still refer to
the previous query's result set), while the view shows the failure message
and an empty source list; the credential and identity also survive. -/
theorem c10_failure_frame (s : AppState) (page : Nat) (e : AxiosError)
    (hq : jsTrim s.query ≠ "") (hu : s.user ≠ none)
    (h401 : e.status ≠ some 401) :
    (askResolve (askPre s page).state
      (ApiResult.err e)).1.pagination = s.pagination ∧
    (askResolve (askPre s page).state (ApiResult.err e)).1.docs = [] ∧
    (askResolve (askPre s page).state (ApiResult.err e)).1.answer =
      some ("❌ Error: " ++ orFalsy e.dataError e.message) ∧
    (askResolve (askPre s page).state (ApiResult.err e)).1.user =
      s.user ∧
    (askResolve (askPre s page).state (ApiResult.err e)).1.jwt_token =
      s.jwt_token := by
  simp [askPre, askResolve, hq, hu, h401]

/-- C10 witness: a concrete 500 failure over the page-2-of-3 state leaves
that pagination in place with the failure message shown. -/
theorem c10_witness :
    jsTrim sMidPages.query ≠ "" ∧ sMidPages.user ≠ none ∧
    e500.status ≠ some 401 ∧
    (askResolve (askPre sMidPages 1).state
      (ApiResult.err e500)).1.pagination = sMidPages.pagination ∧
    (askResolve (askPre sMidPages 1).state
      (ApiResult.err e500)).1.docs = [] ∧
    (askResolve (askPre sMidPages 1).state
      (ApiResult.err e500)).1.answer =
      some ("❌ Error: " ++ orFalsy e500.dataError e500.message) ∧
    (askResolve (askPre sMidPages 1).state
      (ApiResult.err e500)).1.user = sMidPages.user ∧
    (askResolve (askPre sMidPages 1).state
      (ApiResult.err e500)).1.jwt_token = sMidPages.jwt_token :=
  ⟨by decide, by decide, by decide,
   (c10_failure_frame sMidPages 1 e500 (by decide) (by decide)
     (by decide)).1,
   (c10_failure_frame sMidPages 1 e500 (by decide) (by decide)
     (by decide)).2.1,
   (c10_failure_frame sMidPages 1 e500 (by decide) (by decide)
     (by decide)).2.2.1,
   (c10_failure_frame sMidPages 1 e500 (by decide) (by decide)
     (by decide)).2.2.2.1,
   (c10_failure_frame sMidPages 1 e500 (by decide) (by decide)
     (by decide)).2.2.2.2⟩

end RagApp
